import Mathlib

/-!
Verification development for the WeatherAnalysis analytical core
(`utils/data_processing.py`): a loader/validator for raw tabular data
(`load_and_validate_data`), a per-city seasonal analyzer
(`analyze_city_data`), and a temperature normality classifier
(`check_temperature_normality`).

Temperatures, means and variances are embedded as rationals; the sample
standard deviation (a square root) lives in `ℝ`.  IEEE-754 NaN values
(pandas' `std()` of a single sample) are embedded by the type `FVal`:
either NaN or a real number, with NaN comparisons returning `false`,
matching IEEE semantics.  The configuration constants of
`config/settings.py` (`ANOMALY_THRESHOLD`, `ROLLING_WINDOW`,
`SEASON_MAPPING`), whose file is not part of the sources, are taken as
parameters, as the specification's component contracts do.
-/

/-! ### Small string utilities (ASCII model of Python `str.lower` / `str.strip`) -/

/-- ASCII lower-casing of a single character (model of Python `str.lower`
on the season tokens, which are ASCII). -/
def charLower (c : Char) : Char :=
  if 65 ≤ c.toNat ∧ c.toNat ≤ 90 then Char.ofNat (c.toNat + 32) else c

/-- Lower-case a string character-wise (model of Python `str.lower`). -/
def strLower (s : String) : String := ⟨s.data.map charLower⟩

/-- Strip leading and trailing whitespace (model of Python `str.strip`). -/
def strTrim (s : String) : String :=
  ⟨((s.data.dropWhile Char.isWhitespace).reverse.dropWhile Char.isWhitespace).reverse⟩

/-- Lexicographic comparison of character lists by code point, the order
Python uses to compare strings. -/
def clexLe : List Char → List Char → Bool
  | [], _ => true
  | _ :: _, [] => false
  | a :: as, b :: bs =>
    if a.toNat < b.toNat then true
    else if b.toNat < a.toNat then false
    else clexLe as bs

/-- String comparison by code points (Python `<=` on strings). -/
def strLeb (a b : String) : Bool := clexLe a.data b.data

/-! ### Float model and descriptive statistics -/

/-- Model of an IEEE-754 double that is either NaN or an exact real
number.  pandas produces NaN as the sample standard deviation of a
single observation; subsequent arithmetic propagates it and comparisons
against it are `false`. -/
inductive FVal where
  | nan : FVal
  | val : ℝ → FVal

/-- IEEE `<=` on possibly-NaN values: any comparison involving NaN is
`false`. -/
noncomputable def FVal.leb : FVal → FVal → Bool
  | .val x, .val y => decide (x ≤ y)
  | _, _ => false

/-- IEEE `<` on possibly-NaN values: any comparison involving NaN is
`false`. -/
noncomputable def FVal.ltb : FVal → FVal → Bool
  | .val x, .val y => decide (x < y)
  | _, _ => false

/-- Arithmetic mean, as computed by pandas `mean()` (callers only apply
it to nonempty groups). -/
def qmean (l : List ℚ) : ℚ := l.sum / l.length

/-- Sample variance with `ddof = 1` (Bessel's correction), the square of
pandas `std()`. -/
def sampleVar (l : List ℚ) : ℚ :=
  ((l.map fun x => (x - qmean l) ^ 2).sum) / ((l.length : ℚ) - 1)

/-- pandas `std()` with `ddof = 1`: NaN for zero or one observation,
otherwise the square root of the sample variance. -/
noncomputable def sampleStd (l : List ℚ) : FVal :=
  if l.length ≤ 1 then .nan else .val (Real.sqrt (sampleVar l))

/-- The lower anomaly bound `mean - threshold * std`; NaN std propagates. -/
noncomputable def lowerBoundF (k mean : ℚ) : FVal → FVal
  | .nan => .nan
  | .val s => .val (mean - k * s)

/-- The upper anomaly bound `mean + threshold * std`; NaN std propagates. -/
noncomputable def upperBoundF (k mean : ℚ) : FVal → FVal
  | .nan => .nan
  | .val s => .val (mean + k * s)

/-! ### Season translation -/

/-- Embedding of `translate_season`: `SEASON_MAPPING.get(season.lower(), season)`.
The mapping itself lives in `config/settings.py` and is taken as the
parameter `m`. -/
def translate_season (m : String → Option String) (season : String) : String :=
  (m (strLower season)).getD season

/-! ### Data model of the analyzer -/

/-- One observation row of a city dataframe: the columns
`city, timestamp, temperature, season, season_ru` used by
`analyze_city_data`.  Timestamps are embedded as integers (any linearly
ordered time stamp model suffices). -/
structure Obs where
  city : String
  timestamp : ℤ
  temperature : ℚ
  season : String
  season_ru : String
deriving DecidableEq

/-- An observation enriched with its rolling-mean column entry (a float
column in pandas, possibly NaN when `min_periods` is not met). -/
structure EObs where
  obs : Obs
  rolling_mean : Option ℚ
deriving DecidableEq

/-- One row of the `season_stats` table produced by the `groupby('season')`
aggregation in `analyze_city_data`. -/
structure StatsRow where
  season : String
  mean : ℚ
  std : FVal
  min : ℚ
  max : ℚ
  count : ℕ
  season_ru : String

/-- One row of the anomaly dataframe: an enriched observation together
with the season bounds and the signed deviation columns added by
`analyze_city_data`. -/
structure AnomalyRow where
  row : EObs
  lower_bound : FVal
  upper_bound : FVal
  deviation : ℚ

/-- pandas `Series.rolling(window, min_periods).mean()`: entry `i` is the
mean of the up-to-`window` trailing values ending at `i`, or NaN (`none`)
when fewer than `min_periods` values are available. -/
def rollingMeanCol (window minPeriods : ℕ) (xs : List ℚ) : List (Option ℚ) :=
  (List.range xs.length).map fun i =>
    let win := (xs.take (i + 1)).drop (i + 1 - window)
    if minPeriods ≤ win.length then some (qmean win) else none

/-- pandas `Series.unique()`: distinct values in order of first
occurrence. -/
def uniqueFirst : List String → List String
  | [] => []
  | a :: as => a :: (uniqueFirst as).filter (· != a)

/-- The defensive `city_df.sort_values('timestamp')` of `analyze_city_data`. -/
def sortByTimestamp (city_df : List Obs) : List Obs :=
  List.insertionSort (fun a b => a.timestamp ≤ b.timestamp) city_df

/-- The temperature series `season_data['temperature']` of one season of
the (timestamp-sorted) city dataframe. -/
def seasonTemps (city_df : List Obs) (s : String) : List ℚ :=
  ((sortByTimestamp city_df).filter fun o => o.season == s).map (·.temperature)

/-- Embedding of `analyze_city_data`: defensively sort by timestamp,
attach the rolling-mean column (`min_periods=1`), aggregate per-season
statistics (`groupby` sorts the season keys), and collect the per-season
anomaly rows in `unique()` (first-occurrence) season order.  `m` is
`SEASON_MAPPING`, `k` is `ANOMALY_THRESHOLD`, `window` is
`ROLLING_WINDOW`. -/
noncomputable def analyze_city_data (m : String → Option String) (k : ℚ) (window : ℕ)
    (city_df : List Obs) : List EObs × List StatsRow × List AnomalyRow :=
  let sorted := sortByTimestamp city_df
  let roll := rollingMeanCol window 1 (sorted.map (·.temperature))
  let enriched := (sorted.zip roll).map fun p => ⟨p.1, p.2⟩
  let seasonKeys := List.insertionSort (fun a b => strLeb a b = true)
    (uniqueFirst (sorted.map (·.season)))
  let season_stats := seasonKeys.map fun s =>
    let g := (sorted.filter fun o => o.season == s).map (·.temperature)
    { season := s, mean := qmean g, std := sampleStd g,
      min := (g.min?).getD 0, max := (g.max?).getD 0,
      count := g.length, season_ru := translate_season m s }
  let anomalies := (uniqueFirst (sorted.map (·.season))).flatMap fun s =>
    let grp := enriched.filter fun e => e.obs.season == s
    let temps := grp.map (·.obs.temperature)
    let lb := lowerBoundF k (qmean temps) (sampleStd temps)
    let ub := upperBoundF k (qmean temps) (sampleStd temps)
    (grp.filter fun e =>
        FVal.ltb (.val e.obs.temperature) lb || FVal.ltb ub (.val e.obs.temperature)).map
      fun e => { row := e, lower_bound := lb, upper_bound := ub,
                 deviation := e.obs.temperature - qmean temps }
  (enriched, season_stats, anomalies)

/-! ### Normality classifier -/

/-- The dictionary returned by `check_temperature_normality`.  `none`
fields embed Python `None` (the `no_data` outcome). -/
structure NormalityResult where
  is_normal : Option Bool
  mean_temp : Option ℚ
  std_temp : Option FVal
  lower_bound : Option FVal
  upper_bound : Option FVal
  deviation : Option ℚ
  deviation_in_std : Option ℝ
  no_data : Bool

/-- Embedding of `check_temperature_normality`: select the rows of the
stats table matching `season`; if none, return the `no_data` dictionary;
otherwise compute bounds from the first matching row (`.values[0]`),
the inclusive-bounds normality flag (a chained float comparison, `false`
on NaN), the deviation, and `deviation / std if std > 0 else 0`
(`NaN > 0` is `false`). -/
noncomputable def check_temperature_normality (k current_temp : ℚ) (season : String)
    (season_stats : List StatsRow) : NormalityResult :=
  match season_stats.filter fun r => r.season == season with
  | [] =>
    { is_normal := none, mean_temp := none, std_temp := none, lower_bound := none,
      upper_bound := none, deviation := none, deviation_in_std := none, no_data := true }
  | r :: _ =>
    let lb := lowerBoundF k r.mean r.std
    let ub := upperBoundF k r.mean r.std
    let isn := FVal.leb lb (.val current_temp) && FVal.leb (.val current_temp) ub
    let dev := current_temp - r.mean
    let dis : ℝ :=
      match r.std with
      | .val s => if 0 < s then (dev : ℝ) / s else 0
      | .nan => 0
    { is_normal := some isn, mean_temp := some r.mean, std_temp := some r.std,
      lower_bound := some lb, upper_bound := some ub, deviation := some dev,
      deviation_in_std := some dis, no_data := false }

/-! ### Loader / validator -/

/-- A cell value of a loaded dataframe: a raw string, a number (column
inferred numeric by `read_csv`), or a parsed timestamp. -/
inductive Value where
  | str : String → Value
  | num : ℚ → Value
  | time : ℤ → Value
deriving DecidableEq

/-- The raw tabular input handed to `load_and_validate_data`: a header
line and rows of raw cell strings. -/
structure RawTable where
  header : List String
  rows : List (List String)
deriving DecidableEq

/-- A loaded dataframe: column names plus rows of cells aligned with the
columns. -/
structure DataFrame where
  cols : List String
  rows : List (List Value)
deriving DecidableEq

/-- Cell of a row at column index `j` (always in range for well-formed
frames). -/
def cellAt (j : ℕ) (r : List Value) : Value := (r.get? j).getD (.str "")

/-- Embedding of `pd.read_csv`: fails on ragged rows; a column all of
whose cells parse as numbers (`parseNum`) is loaded numerically, any
other column keeps its raw strings.  Type inference never fails, so a
non-numeric temperature column is loaded as strings, not rejected. -/
def readCsv (parseNum : String → Option ℚ) (t : RawTable) : Except String DataFrame :=
  if t.rows.all fun r => r.length == t.header.length then
    .ok { cols := t.header,
          rows := t.rows.map fun r =>
            (List.range t.header.length).map fun j =>
              let cell := (r.get? j).getD ""
              if t.rows.all fun row => (parseNum ((row.get? j).getD "")).isSome then
                match parseNum cell with
                | some q => .num q
                | none => .str cell
              else .str cell }
  else .error "Error tokenizing data."

/-- Monadic map over `Except`, failing at the first failing element, as
vectorized pandas conversions do. -/
def mapExcept (f : α → Except String β) : List α → Except String (List β)
  | [] => .ok []
  | a :: as =>
    match f a with
    | .error e => .error e
    | .ok b =>
      match mapExcept f as with
      | .error e => .error e
      | .ok bs => .ok (b :: bs)

/-- Conversion of one cell of the timestamp column: string cells via the
timestamp parser, numeric cells as epoch numbers, failing with the
underlying parse message. -/
def toDatetimeCell (parseTs : String → Except String ℤ) : Value → Except String Value
  | .str s =>
    match parseTs s with
    | .ok ts => .ok (.time ts)
    | .error e => .error e
  | .num q => .ok (.time q.floor)
  | .time ts => .ok (.time ts)

/-- Embedding of `df['timestamp'] = pd.to_datetime(df['timestamp'])`:
raises `KeyError('timestamp')` when the column is absent, otherwise
converts every cell of the column. -/
def toDatetimeStep (parseTs : String → Except String ℤ) (df : DataFrame) :
    Except String DataFrame :=
  if "timestamp" ∈ df.cols then
    match mapExcept (fun r =>
        match toDatetimeCell parseTs (cellAt (df.cols.indexOf "timestamp") r) with
        | .ok v => .ok (r.set (df.cols.indexOf "timestamp") v)
        | .error e => .error e) df.rows with
    | .ok rows => .ok { cols := df.cols, rows := rows }
    | .error e => .error e
  else .error "'timestamp'"

/-- Embedding of the season normalization of `load_and_validate_data`:
`df['season'] = df['season'].str.lower().str.strip()` followed by
`df['season_ru'] = df['season'].apply(translate_season)`.  A non-string
season cell raises (`apply` of `.lower()` on a float), as in pandas. -/
def seasonStep (m : String → Option String) (df : DataFrame) : Except String DataFrame :=
  if "season" ∈ df.cols then
    match mapExcept (fun r =>
        match cellAt (df.cols.indexOf "season") r with
        | .str s => .ok ((r.set (df.cols.indexOf "season")
              (.str (strTrim (strLower s)))) ++ [Value.str (translate_season m (strTrim (strLower s)))])
        | _ => .error "'float' object has no attribute 'lower'") df.rows with
    | .ok rows => .ok { cols := df.cols ++ ["season_ru"], rows := rows }
    | .error e => .error e
  else .error "'season'"

/-- Total order on cell values used to model the pandas multi-column
sort: numbers, then strings (by code point), then timestamps. -/
def Value.leb : Value → Value → Bool
  | .num a, .num b => decide (a ≤ b)
  | .num _, .str _ => true
  | .num _, .time _ => true
  | .str _, .num _ => false
  | .str a, .str b => clexLe a.data b.data
  | .str _, .time _ => true
  | .time _, .num _ => false
  | .time _, .str _ => false
  | .time a, .time b => decide (a ≤ b)

/-- The `(city, timestamp)` sort key of a row, given the two column
indices. -/
def sortKey (ci ti : ℕ) (r : List Value) : Value × Value := (cellAt ci r, cellAt ti r)

/-- Lexicographic comparison of sort keys. -/
def pairLeb (a b : Value × Value) : Bool :=
  if Value.leb a.1 b.1 then
    if Value.leb b.1 a.1 then Value.leb a.2 b.2 else true
  else false

/-- Row comparison by the `(city, timestamp)` sort key, given the column
name list. -/
def rowLe (cols : List String) (a b : List Value) : Bool :=
  pairLeb (sortKey (cols.indexOf "city") (cols.indexOf "timestamp") a)
    (sortKey (cols.indexOf "city") (cols.indexOf "timestamp") b)

/-- Embedding of `df.sort_values(['city', 'timestamp'])`: a stable sort
of the rows by the lexicographic `(city, timestamp)` key (pandas
multi-column sorting uses the stable `np.lexsort`). -/
def sortStep (df : DataFrame) : DataFrame :=
  { cols := df.cols,
    rows := List.insertionSort (fun a b => rowLe df.cols a b = true) df.rows }

/-- The required columns of `load_and_validate_data`. -/
def requiredColumns : List String := ["city", "timestamp", "temperature", "season"]

/-- The pipeline of `load_and_validate_data` up to (but excluding) the
final sort: `read_csv`, timestamp conversion, season normalization and
translation. -/
def unsortedLoad (parseNum : String → Option ℚ) (parseTs : String → Except String ℤ)
    (m : String → Option String) (t : RawTable) : Except String DataFrame :=
  match readCsv parseNum t with
  | .error e => .error e
  | .ok df =>
    match toDatetimeStep parseTs df with
    | .error e => .error e
    | .ok df2 => seasonStep m df2

/-- Embedding of `load_and_validate_data`: everything runs inside a
`try/except`; the timestamp conversion runs before the required-column
check; a non-empty missing-column list returns the validation message
(not an exception, hence not wrapped); any exception is caught and
wrapped in the generic load-failure message.  The result is a
`(dataset, error)` pair. -/
def load_and_validate_data (parseNum : String → Option ℚ)
    (parseTs : String → Except String ℤ) (m : String → Option String)
    (uploaded : RawTable) : Option DataFrame × Option String :=
  match readCsv parseNum uploaded with
  | .error e => (none, some ("Ошибка при загрузке файла: " ++ e))
  | .ok df =>
    match toDatetimeStep parseTs df with
    | .error e => (none, some ("Ошибка при загрузке файла: " ++ e))
    | .ok df2 =>
      if (requiredColumns.filter fun c => ! df2.cols.contains c).isEmpty then
        match seasonStep m df2 with
        | .error e => (none, some ("Ошибка при загрузке файла: " ++ e))
        | .ok dfU => (some (sortStep dfU), none)
      else
        (none, some ("Отсутствуют необходимые колонки: "
          ++ String.intercalate ", " (requiredColumns.filter fun c => ! df2.cols.contains c)))

/-! ### Concrete parsers and data for witnesses -/

/-- Value of an ASCII digit. -/
def digitVal? (c : Char) : Option ℕ :=
  if 48 ≤ c.toNat ∧ c.toNat ≤ 57 then some (c.toNat - 48) else none

/-- Parse a digit string into a natural number. -/
def parseNatAux : ℕ → List Char → Option ℕ
  | acc, [] => some acc
  | acc, c :: cs =>
    match digitVal? c with
    | some d => parseNatAux (10 * acc + d) cs
    | none => none

/-- A concrete numeric cell parser (digit strings only), standing in for
pandas numeric type inference in witnesses. -/
def demoParseNum (s : String) : Option ℚ :=
  match s.data with
  | [] => none
  | _ :: _ => (parseNatAux 0 s.data).map fun n => (n : ℚ)

/-- A concrete timestamp parser (digit strings only), standing in for
`pd.to_datetime` in witnesses; fails with the pandas-style message. -/
def demoParseTs (s : String) : Except String ℤ :=
  match parseNatAux 0 s.data with
  | some n =>
    match s.data with
    | [] => .error ("Unknown datetime string format: " ++ s)
    | _ :: _ => .ok (n : ℤ)
  | none => .error ("Unknown datetime string format: " ++ s)

/-- Modelled from the spec: `SEASON_MAPPING` of `config/settings.py`
(missing from the sources), the fixed season-to-display-name table; the
spec requires unmapped keys to pass through unchanged, which
`translate_season` provides. -/
def demoSeasonMap : String → Option String
  | "winter" => some "Зима"
  | "spring" => some "Весна"
  | "summer" => some "Лето"
  | "autumn" => some "Осень"
  | _ => none

/-- Concrete city data for witnesses: one winter season with
temperatures `[-5, -7, -6]` (the spec's season-statistics example). -/
def demoObs3 : List Obs :=
  [⟨"moscow", 1, -5, "winter", "Зима"⟩, ⟨"moscow", 2, -7, "winter", "Зима"⟩,
    ⟨"moscow", 3, -6, "winter", "Зима"⟩]

/-- Concrete city data for witnesses: the winter season of `demoObs3`
plus a single-observation summer season. -/
def demoObs4 : List Obs := demoObs3 ++ [⟨"moscow", 4, 100, "summer", "Лето"⟩]

/-- A valid raw table for loader witnesses (unsorted, with an equal
`(city, timestamp)` pair). -/
def tblValid : RawTable :=
  { header := ["city", "timestamp", "temperature", "season"],
    rows := [["b", "2", "1", "winter"], ["a", "2", "2", "summer"],
      ["a", "2", "3", "summer"], ["a", "1", "4", "summer"]] }

/-- A raw table lacking the `timestamp` column. -/
def tblNoTs : RawTable :=
  { header := ["city", "temperature", "season"], rows := [["a", "1", "winter"]] }

/-- A raw table lacking the `temperature` column. -/
def tblNoTemp : RawTable :=
  { header := ["city", "timestamp", "season"], rows := [["a", "1", "winter"]] }

/-- A raw table whose temperature column is not numeric. -/
def tblBadTemp : RawTable :=
  { header := ["city", "timestamp", "temperature", "season"],
    rows := [["a", "1", "abc", "winter"]] }

/-- A raw table with an unparseable timestamp cell. -/
def tblBadTs : RawTable :=
  { header := ["city", "timestamp", "temperature", "season"],
    rows := [["a", "x1", "3", "winter"]] }

/-- The season-statistics row the analyzer computes for the winter
season of `demoObs3`. -/
noncomputable def demoWinterRow : StatsRow :=
  { season := "winter", mean := qmean (seasonTemps demoObs3 "winter"),
    std := sampleStd (seasonTemps demoObs3 "winter"),
    min := ((seasonTemps demoObs3 "winter").min?).getD 0,
    max := ((seasonTemps demoObs3 "winter").max?).getD 0,
    count := (seasonTemps demoObs3 "winter").length,
    season_ru := translate_season demoSeasonMap "winter" }

/-! ### Properties of the comparators -/

theorem clexLe_refl : ∀ l : List Char, clexLe l l = true
  | [] => rfl
  | a :: as => by simp [clexLe, clexLe_refl as]

theorem clexLe_total : ∀ l₁ l₂ : List Char, clexLe l₁ l₂ = true ∨ clexLe l₂ l₁ = true
  | [], _ => .inl rfl
  | _ :: _, [] => .inr rfl
  | a :: as, b :: bs => by
    rcases clexLe_total as bs with h | h <;> simp [clexLe, h] <;> omega

theorem clexLe_trans : ∀ {l₁ l₂ l₃ : List Char},
    clexLe l₁ l₂ = true → clexLe l₂ l₃ = true → clexLe l₁ l₃ = true
  | [], _, _, _, _ => rfl
  | _ :: _, [], _, h₁, _ => by simp [clexLe] at h₁
  | _ :: _, _ :: _, [], _, h₂ => by simp [clexLe] at h₂
  | a :: as, b :: bs, c :: cs, h₁, h₂ => by
    simp only [clexLe] at h₁ h₂ ⊢
    split at h₁
    · rename_i hab
      split at h₂
      · rename_i hbc
        rw [if_pos (by omega : a.toNat < c.toNat)]
      · split at h₂
        · exact absurd h₂ (by simp)
        · rename_i hbc hcb
          rw [if_pos (by omega : a.toNat < c.toNat)]
    · split at h₁
      · exact absurd h₁ (by simp)
      · rename_i hab hba
        split at h₂
        · rename_i hbc
          rw [if_pos (by omega : a.toNat < c.toNat)]
        · split at h₂
          · exact absurd h₂ (by simp)
          · rename_i hbc hcb
            rw [if_neg (by omega : ¬ a.toNat < c.toNat),
              if_neg (by omega : ¬ c.toNat < a.toNat)]
            exact clexLe_trans h₁ h₂

theorem Value.leb_refl : ∀ v : Value, Value.leb v v = true
  | .str s => clexLe_refl s.data
  | .num q => by simp [Value.leb]
  | .time t => by simp [Value.leb]

theorem Value.leb_total : ∀ v w : Value, Value.leb v w = true ∨ Value.leb w v = true
  | .num a, .num b => by simpa [Value.leb] using le_total a b
  | .num _, .str _ => .inl rfl
  | .num _, .time _ => .inl rfl
  | .str _, .num _ => .inr rfl
  | .str a, .str b => clexLe_total a.data b.data
  | .str _, .time _ => .inl rfl
  | .time _, .num _ => .inr rfl
  | .time _, .str _ => .inr rfl
  | .time a, .time b => by simpa [Value.leb] using le_total a b

theorem Value.leb_trans : ∀ {v w x : Value},
    Value.leb v w = true → Value.leb w x = true → Value.leb v x = true
  | .num _, .num _, .num _, h₁, h₂ => by
    simp only [Value.leb, decide_eq_true_eq] at h₁ h₂ ⊢; exact le_trans h₁ h₂
  | .num _, .num _, .str _, _, _ => rfl
  | .num _, .num _, .time _, _, _ => rfl
  | .num _, .str _, .str _, _, _ => rfl
  | .num _, .str _, .time _, _, _ => rfl
  | .num _, .time _, .time _, _, _ => rfl
  | .num _, .str _, .num _, _, h₂ => by simp [Value.leb] at h₂
  | .num _, .time _, .num _, _, h₂ => by simp [Value.leb] at h₂
  | .num _, .time _, .str _, _, h₂ => by simp [Value.leb] at h₂
  | .str _, .num _, _, h₁, _ => by simp [Value.leb] at h₁
  | .str a, .str b, .str c, h₁, h₂ => clexLe_trans h₁ h₂
  | .str _, .str _, .num _, _, h₂ => by simp [Value.leb] at h₂
  | .str _, .str _, .time _, _, _ => rfl
  | .str _, .time _, .num _, _, h₂ => by simp [Value.leb] at h₂
  | .str _, .time _, .str _, _, h₂ => by simp [Value.leb] at h₂
  | .str _, .time _, .time _, _, _ => rfl
  | .time _, .num _, _, h₁, _ => by simp [Value.leb] at h₁
  | .time _, .str _, _, h₁, _ => by simp [Value.leb] at h₁
  | .time _, .time _, .num _, _, h₂ => by simp [Value.leb] at h₂
  | .time _, .time _, .str _, _, h₂ => by simp [Value.leb] at h₂
  | .time a, .time b, .time c, h₁, h₂ => by
    simp only [Value.leb, decide_eq_true_eq] at h₁ h₂ ⊢; exact le_trans h₁ h₂

theorem pairLeb_refl (a : Value × Value) : pairLeb a a = true := by
  simp [pairLeb, Value.leb_refl]

theorem pairLeb_total (a b : Value × Value) : pairLeb a b = true ∨ pairLeb b a = true := by
  unfold pairLeb
  by_cases h₁ : Value.leb a.1 b.1 = true <;> by_cases h₂ : Value.leb b.1 a.1 = true
  · rcases Value.leb_total a.2 b.2 with h₃ | h₃
    · left; simp [h₁, h₂, h₃]
    · right; simp [h₁, h₂, h₃]
  · left; simp [h₁, h₂]
  · right; simp [h₁, h₂]
  · rcases Value.leb_total a.1 b.1 with h | h
    · exact absurd h h₁
    · exact absurd h h₂

theorem pairLeb_trans {a b c : Value × Value} (h₁ : pairLeb a b = true)
    (h₂ : pairLeb b c = true) : pairLeb a c = true := by
  unfold pairLeb at h₁ h₂ ⊢
  by_cases hab : Value.leb a.1 b.1 = true
  · by_cases hbc : Value.leb b.1 c.1 = true
    · have hac : Value.leb a.1 c.1 = true := Value.leb_trans hab hbc
      simp only [hac, if_pos]
      by_cases hca : Value.leb c.1 a.1 = true
      · have hcb : Value.leb c.1 b.1 = true := Value.leb_trans hca hab
        have hba : Value.leb b.1 a.1 = true := Value.leb_trans hbc hca
        simp only [hab, hba, if_pos, hbc, hcb] at h₁ h₂
        simp only [hca, if_pos]
        exact Value.leb_trans h₁ h₂
      · simp [hca]
    · simp [hbc] at h₂
  · simp [hab] at h₁

theorem pairLeb_of_eq {a b : Value × Value} (h : a = b) : pairLeb a b = true :=
  h ▸ pairLeb_refl a

/-! ### Stability of insertion sort with respect to key filters -/

theorem filter_orderedInsert_pos {α : Type} (r : α → α → Prop) [DecidableRel r]
    (p : α → Bool) (a : α) (l : List α) (h₂ : p a = true)
    (h₁ : ∀ b, p b = true → r a b) :
    (List.orderedInsert r a l).filter p = a :: l.filter p := by
  induction l with
  | nil => simp [List.orderedInsert, h₂]
  | cons b l ih =>
    by_cases hr : r a b
    · simp [List.orderedInsert, hr, h₂]
    · have hb : p b = false := by
        cases hpb : p b
        · rfl
        · exact absurd (h₁ b hpb) hr
      simp [List.orderedInsert, hr, hb, ih]

theorem filter_orderedInsert_neg {α : Type} (r : α → α → Prop) [DecidableRel r]
    (p : α → Bool) (a : α) (l : List α) (h₂ : p a = false) :
    (List.orderedInsert r a l).filter p = l.filter p := by
  induction l with
  | nil => simp [List.orderedInsert, h₂]
  | cons b l ih =>
    by_cases hr : r a b
    · simp [List.orderedInsert, hr, h₂]
    · cases hb : p b <;> simp [List.orderedInsert, hr, hb, ih]

theorem filter_insertionSort {α : Type} (r : α → α → Prop) [DecidableRel r]
    (p : α → Bool) (l : List α) (hkey : ∀ a b, p a = true → p b = true → r a b) :
    (List.insertionSort r l).filter p = l.filter p := by
  induction l with
  | nil => rfl
  | cons a l ih =>
    cases hpa : p a
    · simpa [List.insertionSort, hpa, ← ih]
        using filter_orderedInsert_neg r p a (List.insertionSort r l) hpa
    · simpa [List.insertionSort, hpa, ← ih]
        using filter_orderedInsert_pos r p a (List.insertionSort r l) hpa
          (fun b hb => hkey a b hpa hb)

/-! ### Lemmas about `uniqueFirst` and group partitions -/

theorem mem_uniqueFirst : ∀ (l : List String) (s : String), s ∈ uniqueFirst l ↔ s ∈ l
  | [], _ => Iff.rfl
  | a :: as, s => by
    simp only [uniqueFirst, List.mem_cons, List.mem_filter, mem_uniqueFirst as]
    constructor
    · rintro (rfl | ⟨h, _⟩)
      · exact .inl rfl
      · exact .inr h
    · rintro (rfl | h)
      · exact .inl rfl
      · by_cases hs : s = a
        · exact .inl hs
        · exact .inr ⟨h, bne_iff_ne.mpr hs⟩

theorem nodup_uniqueFirst : ∀ l : List String, (uniqueFirst l).Nodup
  | [] => List.nodup_nil
  | a :: as => by
    simp only [uniqueFirst, List.nodup_cons]
    refine ⟨fun hmem => ?_, (nodup_uniqueFirst as).filter _⟩
    have := List.of_mem_filter hmem
    simp at this

theorem sum_length_filter_eq {β : Type} (key : β → String) :
    ∀ (keys : List String) (l : List β), keys.Nodup → (∀ x ∈ l, key x ∈ keys) →
      (keys.map fun s => (l.filter fun x => key x == s).length).sum = l.length
  | [], l, _, hcov => by
    have hl : l = [] := List.eq_nil_iff_forall_not_mem.mpr fun x hx => by simpa using hcov x hx
    simp [hl]
  | s :: ks, l, hnd, hcov => by
    simp only [List.map_cons, List.sum_cons]
    have hnd' := List.nodup_cons.mp hnd
    have hmap : ks.map (fun k => (l.filter fun x => key x == k).length)
        = ks.map (fun k => ((l.filter fun x => ! (key x == s)).filter fun x => key x == k).length) := by
      refine List.map_congr_left fun k hk => ?_
      rw [List.filter_filter]
      congr 1
      refine List.filter_congr fun x _ => ?_
      cases hxk : (key x == k) with
      | false => simp [hxk]
      | true =>
        have hxk' : key x = k := by simpa using hxk
        have hxs : key x ≠ s := by
          intro hkeq
          have hks : k = s := hxk'.symm.trans hkeq
          rw [hks] at hk
          exact hnd'.1 hk
        simp [hxk, hxs]
    rw [hmap, sum_length_filter_eq key ks (l.filter fun x => ! (key x == s)) hnd'.2
      (fun x hx => by
        rcases List.mem_filter.mp hx with ⟨hxl, hxs⟩
        rcases List.mem_cons.mp (hcov x hxl) with h | h
        · exact absurd h (by simpa using hxs)
        · exact h)]
    exact (List.length_eq_length_filter_add fun x => key x == s).symm

/-! ### Lemmas about the loader steps -/

theorem mapExcept_ok_map {α β : Type} (f : α → Except String β) (dflt : β) :
    ∀ {l : List α} {ys : List β}, mapExcept f l = .ok ys →
      ys = l.map fun a => ((f a).toOption).getD dflt
  | [], ys, h => by
    simp only [mapExcept] at h
    cases h
    rfl
  | a :: as, ys, h => by
    simp only [mapExcept] at h
    cases hfa : f a with
    | error e => rw [hfa] at h; cases h
    | ok b =>
      rw [hfa] at h
      cases hrec : mapExcept f as with
      | error e => rw [hrec] at h; cases h
      | ok bs =>
        rw [hrec] at h
        cases h
        simp only [List.map_cons, hfa, Except.toOption, Option.getD_some]
        exact congrArg _ (mapExcept_ok_map f dflt hrec)

theorem mapExcept_ok_length {α β : Type} [Inhabited β] (f : α → Except String β)
    {l : List α} {ys : List β} (h : mapExcept f l = .ok ys) : ys.length = l.length := by
  rw [mapExcept_ok_map f default h, List.length_map]

theorem readCsv_ok_inv {pn : String → Option ℚ} {t : RawTable} {df : DataFrame}
    (h : readCsv pn t = .ok df) : df.cols = t.header ∧ ∃ g, df.rows = t.rows.map g := by
  unfold readCsv at h
  split at h
  · cases h
    exact ⟨rfl, _, rfl⟩
  · cases h

theorem toDatetimeStep_ok_inv {pt : String → Except String ℤ} {d d2 : DataFrame}
    (h : toDatetimeStep pt d = .ok d2) :
    d2.cols = d.cols ∧ ∃ g, d2.rows = d.rows.map g := by
  unfold toDatetimeStep at h
  split at h
  · cases hm : mapExcept (fun r =>
        match toDatetimeCell pt (cellAt (d.cols.indexOf "timestamp") r) with
        | .ok v => .ok (r.set (d.cols.indexOf "timestamp") v)
        | .error e => .error e) d.rows with
    | error e => rw [hm] at h; cases h
    | ok rows =>
      rw [hm] at h
      cases h
      exact ⟨rfl, _, mapExcept_ok_map _ [] hm⟩
  · cases h

theorem seasonStep_ok_inv {m : String → Option String} {d d2 : DataFrame}
    (h : seasonStep m d = .ok d2) :
    d2.cols = d.cols ++ ["season_ru"] ∧ ∃ g, d2.rows = d.rows.map g := by
  unfold seasonStep at h
  split at h
  · cases hm : mapExcept (fun r =>
        match cellAt (d.cols.indexOf "season") r with
        | .str s => .ok ((r.set (d.cols.indexOf "season")
              (.str (strTrim (strLower s)))) ++ [Value.str (translate_season m (strTrim (strLower s)))])
        | _ => .error "'float' object has no attribute 'lower'") d.rows with
    | error e => rw [hm] at h; cases h
    | ok rows =>
      rw [hm] at h
      cases h
      exact ⟨rfl, _, mapExcept_ok_map _ [] hm⟩
  · cases h

theorem load_ok_inv {pn : String → Option ℚ} {pt : String → Except String ℤ}
    {m : String → Option String} {t : RawTable} {df : DataFrame}
    (h : load_and_validate_data pn pt m t = (some df, none)) :
    ∃ d1 d2 dfU, readCsv pn t = .ok d1 ∧ toDatetimeStep pt d1 = .ok d2 ∧
      (requiredColumns.filter fun c => ! d2.cols.contains c) = [] ∧
      seasonStep m d2 = .ok dfU ∧ unsortedLoad pn pt m t = .ok dfU ∧ df = sortStep dfU := by
  unfold load_and_validate_data at h
  cases h₁ : readCsv pn t with
  | error e => simp only [h₁] at h; exact absurd (congrArg Prod.fst h) (by simp)
  | ok d1 =>
    cases h₂ : toDatetimeStep pt d1 with
    | error e => simp only [h₁, h₂] at h; exact absurd (congrArg Prod.fst h) (by simp)
    | ok d2 =>
      by_cases hmiss : (requiredColumns.filter fun c => ! d2.cols.contains c).isEmpty = true
      · cases h₃ : seasonStep m d2 with
        | error e =>
          simp only [h₁, h₂] at h
          rw [if_pos hmiss] at h
          simp only [h₃] at h
          exact absurd (congrArg Prod.fst h) (by simp)
        | ok dfU =>
          simp only [h₁, h₂] at h
          rw [if_pos hmiss] at h
          simp only [h₃, Prod.mk.injEq, Option.some.injEq] at h
          exact ⟨d1, d2, dfU, rfl, h₂, List.isEmpty_iff.mp hmiss, h₃,
            by simp only [unsortedLoad, h₁, h₂]; exact h₃, h.1.symm⟩
      · simp only [h₁, h₂] at h
        rw [if_neg hmiss] at h
        exact absurd (congrArg Prod.fst h) (by simp)

theorem load_shape (pn : String → Option ℚ) (pt : String → Except String ℤ)
    (m : String → Option String) (t : RawTable) :
    (∃ df, load_and_validate_data pn pt m t = (some df, none)) ∨
      (∃ e, load_and_validate_data pn pt m t = (none, some e)) := by
  cases h₁ : readCsv pn t with
  | error e =>
    refine .inr ⟨"Ошибка при загрузке файла: " ++ e, ?_⟩
    unfold load_and_validate_data
    simp only [h₁]
  | ok d1 =>
    cases h₂ : toDatetimeStep pt d1 with
    | error e =>
      refine .inr ⟨"Ошибка при загрузке файла: " ++ e, ?_⟩
      unfold load_and_validate_data
      simp only [h₁, h₂]
    | ok d2 =>
      by_cases hmiss : (requiredColumns.filter fun c => ! d2.cols.contains c).isEmpty = true
      · cases h₃ : seasonStep m d2 with
        | error e =>
          refine .inr ⟨"Ошибка при загрузке файла: " ++ e, ?_⟩
          unfold load_and_validate_data
          simp only [h₁, h₂]
          rw [if_pos hmiss]
          simp only [h₃]
        | ok dfU =>
          refine .inl ⟨sortStep dfU, ?_⟩
          unfold load_and_validate_data
          simp only [h₁, h₂]
          rw [if_pos hmiss]
          simp only [h₃]
      · refine .inr ⟨"Отсутствуют необходимые колонки: " ++ String.intercalate ", "
            (requiredColumns.filter fun c => ! d2.cols.contains c), ?_⟩
        unfold load_and_validate_data
        simp only [h₁, h₂]
        rw [if_neg hmiss]

theorem load_missing_ts {pn : String → Option ℚ} {pt : String → Except String ℤ}
    {m : String → Option String} {t : RawTable} (hts : "timestamp" ∉ t.header) :
    ∃ e, load_and_validate_data pn pt m t
      = (none, some ("Ошибка при загрузке файла: " ++ e)) := by
  cases h₁ : readCsv pn t with
  | error e =>
    refine ⟨e, ?_⟩
    unfold load_and_validate_data
    simp only [h₁]
  | ok d1 =>
    have hcols := (readCsv_ok_inv h₁).1
    have herr : toDatetimeStep pt d1 = .error "'timestamp'" := by
      unfold toDatetimeStep
      rw [if_neg (by rw [hcols]; exact hts)]
    refine ⟨"'timestamp'", ?_⟩
    unfold load_and_validate_data
    simp only [h₁, herr]

/-! ### Lemmas about the analyzer -/

theorem rollingMeanCol_length (w p : ℕ) (xs : List ℚ) :
    (rollingMeanCol w p xs).length = xs.length := by
  simp [rollingMeanCol]

theorem sortByTimestamp_perm (df : List Obs) : (sortByTimestamp df).Perm df :=
  List.perm_insertionSort _ df

theorem analyze_fst (m : String → Option String) (k : ℚ) (w : ℕ) (df : List Obs) :
    (analyze_city_data m k w df).1 =
      ((sortByTimestamp df).zip
        (rollingMeanCol w 1 ((sortByTimestamp df).map (·.temperature)))).map
          fun p => EObs.mk p.1 p.2 := rfl

theorem analyze_stats_eq (m : String → Option String) (k : ℚ) (w : ℕ) (df : List Obs) :
    (analyze_city_data m k w df).2.1 =
      (List.insertionSort (fun a b => strLeb a b = true)
        (uniqueFirst ((sortByTimestamp df).map (·.season)))).map fun s =>
        { season := s, mean := qmean (seasonTemps df s), std := sampleStd (seasonTemps df s),
          min := ((seasonTemps df s).min?).getD 0, max := ((seasonTemps df s).max?).getD 0,
          count := (seasonTemps df s).length, season_ru := translate_season m s } := rfl

theorem zipmk_obs_mem {sorted : List Obs} {roll : List (Option ℚ)} {e : EObs}
    (he : e ∈ (sorted.zip roll).map fun p => EObs.mk p.1 p.2) : e.obs ∈ sorted := by
  rcases List.mem_map.mp he with ⟨p, hp, rfl⟩
  exact (List.of_mem_zip hp).1

theorem zipmk_filter_map {γ : Type} (f : Obs → γ) (q : Obs → Bool) :
    ∀ (sorted : List Obs) (roll : List (Option ℚ)), sorted.length = roll.length →
      ((((sorted.zip roll).map fun p => EObs.mk p.1 p.2).filter fun e => q e.obs).map
          fun e => f e.obs)
        = (sorted.filter q).map f
  | [], _, _ => by simp
  | _ :: _, [], h => by simp at h
  | o :: os, r :: rs, h => by
    have h' : os.length = rs.length := by simpa using h
    by_cases hq : q o = true
    · simp [hq, zipmk_filter_map f q os rs h']
    · simp only [Bool.not_eq_true] at hq
      simp [hq, zipmk_filter_map f q os rs h']

theorem analyze_enriched_length (m : String → Option String) (k : ℚ) (w : ℕ)
    (df : List Obs) : (analyze_city_data m k w df).1.length = df.length := by
  rw [analyze_fst, List.length_map, List.length_zip, rollingMeanCol_length,
    List.length_map, min_self]
  exact (sortByTimestamp_perm df).length_eq

theorem min?_getD_spec (l : List ℚ) (hne : l ≠ []) :
    ((l.min?).getD 0) ∈ l ∧ ∀ x ∈ l, ((l.min?).getD 0) ≤ x := by
  cases hm : l.min? with
  | none =>
    rcases l with _ | ⟨a, l⟩
    · exact absurd rfl hne
    · simp [List.min?] at hm
  | some a =>
    haveI : Std.Antisymm fun x₁ x₂ : ℚ => x₁ ≤ x₂ := ⟨fun h h2 => le_antisymm h h2⟩
    have ha := (List.min?_eq_some_iff (fun a => le_refl a) (fun a b => min_choice a b)
      (fun a b c => le_min_iff)).mp hm
    simpa [hm] using ha

theorem max?_getD_spec (l : List ℚ) (hne : l ≠ []) :
    ((l.max?).getD 0) ∈ l ∧ ∀ x ∈ l, x ≤ ((l.max?).getD 0) := by
  cases hm : l.max? with
  | none =>
    rcases l with _ | ⟨a, l⟩
    · exact absurd rfl hne
    · simp [List.max?] at hm
  | some a =>
    haveI : Std.Antisymm fun x₁ x₂ : ℚ => x₁ ≤ x₂ := ⟨fun h h2 => le_antisymm h h2⟩
    have ha := (List.max?_eq_some_iff (fun a => le_refl a) (fun a b => max_choice a b)
      (fun a b c => max_le_iff)).mp hm
    simpa [hm] using ha

theorem generic_ne_validation (e s : String) :
    ("Ошибка при загрузке файла: " ++ e) ≠ ("Отсутствуют необходимые колонки: " ++ s) := by
  intro h
  have hd : ("Ошибка при загрузке файла: ".data ++ e.data)
      = ("Отсутствуют необходимые колонки: ".data ++ s.data) := congrArg String.data h
  have h2 := congrArg (List.take 2) hd
  rw [List.take_append_of_le_length (by decide),
    List.take_append_of_le_length (by decide)] at h2
  exact absurd h2 (by decide)

theorem analyze_trd (m : String → Option String) (k : ℚ) (w : ℕ) (df : List Obs) :
    (analyze_city_data m k w df).2.2 =
      (uniqueFirst ((sortByTimestamp df).map (·.season))).flatMap fun s =>
        (((((sortByTimestamp df).zip
            (rollingMeanCol w 1 ((sortByTimestamp df).map (·.temperature)))).map
              fun p => EObs.mk p.1 p.2).filter fun e => e.obs.season == s).filter fun e =>
          FVal.ltb (.val e.obs.temperature)
              (lowerBoundF k (qmean (seasonTemps df s)) (sampleStd (seasonTemps df s)))
            || FVal.ltb (upperBoundF k (qmean (seasonTemps df s)) (sampleStd (seasonTemps df s)))
              (.val e.obs.temperature)).map
          fun e => AnomalyRow.mk e
            (lowerBoundF k (qmean (seasonTemps df s)) (sampleStd (seasonTemps df s)))
            (upperBoundF k (qmean (seasonTemps df s)) (sampleStd (seasonTemps df s)))
            (e.obs.temperature - qmean (seasonTemps df s)) := by
  have hlen : (sortByTimestamp df).length
      = (rollingMeanCol w 1 ((sortByTimestamp df).map (·.temperature))).length := by
    rw [rollingMeanCol_length, List.length_map]
  show ((uniqueFirst ((sortByTimestamp df).map (·.season))).flatMap _) = _
  refine List.flatMap_congr fun s _ => ?_
  simp only [zipmk_filter_map (fun o => o.temperature) (fun o => o.season == s) _ _ hlen]
  simp only [seasonTemps]

theorem anomalies_length_le {γ : Type} (keys : List String) (l : List EObs)
    (hnd : keys.Nodup) (hcov : ∀ e ∈ l, e.obs.season ∈ keys)
    (cond : String → EObs → Bool) (mkr : String → EObs → γ) :
    (keys.flatMap fun s =>
      ((l.filter fun e => e.obs.season == s).filter (cond s)).map (mkr s)).length
      ≤ l.length := by
  rw [List.length_flatMap]
  have hsum := sum_length_filter_eq (fun e : EObs => e.obs.season) keys l hnd hcov
  calc (keys.map (List.length ∘ fun s =>
          ((l.filter fun e => e.obs.season == s).filter (cond s)).map (mkr s))).sum
      ≤ (keys.map fun s => (l.filter fun e => e.obs.season == s).length).sum := by
        refine List.sum_le_sum fun s hs => ?_
        simp only [Function.comp, List.length_map]
        exact List.length_filter_le _ _
    _ = l.length := hsum

/-! ### Claim theorems -/

/-- C1: for every city dataset, rolling window and threshold `k > 0`, the
anomaly set of `analyze_city_data` contains exactly the enriched
observations whose temperature is strictly below `mean - k*std` or
strictly above `mean + k*std` of their own season (statistics computed
over that season's observations); each flagged row carries that season's
`lower_bound`, `upper_bound` and `deviation = temperature - mean`; the
anomalies' observations all come from the input, and the anomaly count
never exceeds the input observation count. -/
theorem C1_anomaly_set (m : String → Option String) (k : ℚ) (w : ℕ) (df : List Obs)
    (hk : 0 < k) :
    (∀ a, a ∈ (analyze_city_data m k w df).2.2 ↔
      (a.row ∈ (analyze_city_data m k w df).1 ∧
        (FVal.ltb (.val a.row.obs.temperature)
            (lowerBoundF k (qmean (seasonTemps df a.row.obs.season))
              (sampleStd (seasonTemps df a.row.obs.season))) = true ∨
          FVal.ltb (upperBoundF k (qmean (seasonTemps df a.row.obs.season))
              (sampleStd (seasonTemps df a.row.obs.season)))
            (.val a.row.obs.temperature) = true) ∧
        a.lower_bound = lowerBoundF k (qmean (seasonTemps df a.row.obs.season))
          (sampleStd (seasonTemps df a.row.obs.season)) ∧
        a.upper_bound = upperBoundF k (qmean (seasonTemps df a.row.obs.season))
          (sampleStd (seasonTemps df a.row.obs.season)) ∧
        a.deviation = a.row.obs.temperature - qmean (seasonTemps df a.row.obs.season))) ∧
    (∀ a ∈ (analyze_city_data m k w df).2.2, a.row.obs ∈ df) ∧
    (analyze_city_data m k w df).2.2.length ≤ df.length := by
  have htrd := analyze_trd m k w df
  have hfst := analyze_fst m k w df
  have hiff : ∀ a, a ∈ (analyze_city_data m k w df).2.2 ↔
      (a.row ∈ (analyze_city_data m k w df).1 ∧
        (FVal.ltb (.val a.row.obs.temperature)
            (lowerBoundF k (qmean (seasonTemps df a.row.obs.season))
              (sampleStd (seasonTemps df a.row.obs.season))) = true ∨
          FVal.ltb (upperBoundF k (qmean (seasonTemps df a.row.obs.season))
              (sampleStd (seasonTemps df a.row.obs.season)))
            (.val a.row.obs.temperature) = true) ∧
        a.lower_bound = lowerBoundF k (qmean (seasonTemps df a.row.obs.season))
          (sampleStd (seasonTemps df a.row.obs.season)) ∧
        a.upper_bound = upperBoundF k (qmean (seasonTemps df a.row.obs.season))
          (sampleStd (seasonTemps df a.row.obs.season)) ∧
        a.deviation = a.row.obs.temperature - qmean (seasonTemps df a.row.obs.season)) := by
    intro a
    rw [htrd, hfst, List.mem_flatMap]
    constructor
    · rintro ⟨s, hs, ha⟩
      rcases List.mem_map.mp ha with ⟨e, he, rfl⟩
      rcases List.mem_filter.mp he with ⟨he1, hcond⟩
      rcases List.mem_filter.mp he1 with ⟨he2, hseas⟩
      have hseq : e.obs.season = s := by simpa using hseas
      subst hseq
      exact ⟨he2, by simpa using hcond, rfl, rfl, rfl⟩
    · rintro ⟨hrow, hcond, hlb, hub, hdev⟩
      refine ⟨a.row.obs.season, (mem_uniqueFirst _ _).mpr
        (List.mem_map.mpr ⟨a.row.obs, zipmk_obs_mem hrow, rfl⟩), List.mem_map.mpr
        ⟨a.row, List.mem_filter.mpr ⟨List.mem_filter.mpr ⟨hrow, by simp⟩, by simpa using hcond⟩, ?_⟩⟩
      cases a with
      | mk row lb ub dev => simp_all
  refine ⟨hiff, fun a ha => ?_, ?_⟩
  · have hmem := ((hiff a).mp ha).1
    rw [hfst] at hmem
    exact (sortByTimestamp_perm df).mem_iff.mp (zipmk_obs_mem hmem)
  · rw [htrd]
    have hcov : ∀ e ∈ ((sortByTimestamp df).zip
        (rollingMeanCol w 1 ((sortByTimestamp df).map (·.temperature)))).map
          (fun p => EObs.mk p.1 p.2),
        e.obs.season ∈ uniqueFirst ((sortByTimestamp df).map (·.season)) := fun e he =>
      (mem_uniqueFirst _ _).mpr (List.mem_map.mpr ⟨e.obs, zipmk_obs_mem he, rfl⟩)
    refine le_trans (anomalies_length_le _ _ (nodup_uniqueFirst _) hcov _ _) ?_
    have hl := analyze_enriched_length m k w df
    rw [hfst] at hl
    exact le_of_eq hl

theorem qmean_take_one (xs : List ℚ) (h : 0 < xs.length) : qmean (xs.take 1) = xs[0] := by
  cases xs with
  | nil => simp at h
  | cons a t => simp [qmean]

/-- C5: for every non-empty city series and window at least 1, the
rolling-mean column of `analyze_city_data` has exactly one defined value
per observation; entry `i` is the mean of the up-to-`window` trailing
temperatures ending at `i` (minimum-periods-1 semantics), and the first
value equals the first temperature. -/
theorem C5_rolling_mean (m : String → Option String) (k : ℚ) (w : ℕ) (df : List Obs)
    (hw : 1 ≤ w) (hne : df ≠ []) :
    (analyze_city_data m k w df).1.length = df.length ∧
    (∀ i (h : i < (analyze_city_data m k w df).1.length),
      ((analyze_city_data m k w df).1.get ⟨i, h⟩).rolling_mean
        = some (qmean ((((sortByTimestamp df).map (·.temperature)).take (i + 1)).drop
            (i + 1 - w)))) ∧
    (∀ h0 : 0 < (analyze_city_data m k w df).1.length,
      ((analyze_city_data m k w df).1.get ⟨0, h0⟩).rolling_mean
        = some (((analyze_city_data m k w df).1.get ⟨0, h0⟩).obs.temperature)) := by
  have hlen := analyze_enriched_length m k w df
  have hsb : ∀ i, i < (analyze_city_data m k w df).1.length →
      i < (sortByTimestamp df).length := by
    intro i h
    rw [(sortByTimestamp_perm df).length_eq, ← hlen]
    exact h
  have hrb : ∀ i, i < (analyze_city_data m k w df).1.length →
      i < (rollingMeanCol w 1 ((sortByTimestamp df).map (·.temperature))).length := by
    intro i h
    rw [rollingMeanCol_length, List.length_map]
    exact hsb i h
  have hE : ∀ i (h : i < (analyze_city_data m k w df).1.length)
      (hs : i < (sortByTimestamp df).length)
      (hr : i < (rollingMeanCol w 1 ((sortByTimestamp df).map (·.temperature))).length),
      (analyze_city_data m k w df).1.get ⟨i, h⟩
        = EObs.mk ((sortByTimestamp df)[i])
            ((rollingMeanCol w 1 ((sortByTimestamp df).map (·.temperature)))[i]) := by
    intro i h hs hr
    revert h
    rw [analyze_fst]
    intro h
    rw [List.get_eq_getElem, List.getElem_map, List.getElem_zip]
  have hget : ∀ i (h : i < (analyze_city_data m k w df).1.length),
      ((analyze_city_data m k w df).1.get ⟨i, h⟩).rolling_mean
        = some (qmean ((((sortByTimestamp df).map (·.temperature)).take (i + 1)).drop
            (i + 1 - w))) := by
    intro i h
    rw [hE i h (hsb i h) (hrb i h)]
    have hxs : i < ((sortByTimestamp df).map (·.temperature)).length := by
      rw [List.length_map]; exact hsb i h
    have hwin : 1 ≤ ((((sortByTimestamp df).map (·.temperature)).take (i + 1)).drop
        (i + 1 - w)).length := by
      rw [List.length_drop, List.length_take]
      omega
    simp only [rollingMeanCol, List.getElem_map, List.getElem_range, hwin, if_pos]
  refine ⟨hlen, hget, fun h0 => ?_⟩
  have h0s : 0 < (sortByTimestamp df).length := hsb 0 h0
  rw [hget 0 h0, hE 0 h0 (hsb 0 h0) (hrb 0 h0)]
  show some (qmean _) = some ((sortByTimestamp df)[0].temperature)
  have hxs0 : 0 < ((sortByTimestamp df).map (·.temperature)).length := by
    rw [List.length_map]; exact hsb 0 h0
  rw [show (0 + 1 - w) = 0 from by omega, List.drop_zero,
    ← List.getElem_map (fun o : Obs => o.temperature)]
  exact congrArg some (qmean_take_one _ hxs0)

/-- C6: the `season_stats` table of `analyze_city_data` has exactly one
row per distinct season present in the data, holding that season's mean,
sample standard deviation (`ddof = 1`, NaN for a single-observation
season), minimum, maximum and count; on the observations `[-5, -7, -6]`
of one season it yields mean `-6`, sample std `1` and count `3`. -/
theorem C6_season_stats (m : String → Option String) (k : ℚ) (w : ℕ) (df : List Obs) :
    (((analyze_city_data m k w df).2.1.map (·.season)).Nodup ∧
      (∀ s, s ∈ (analyze_city_data m k w df).2.1.map (·.season) ↔ s ∈ df.map (·.season)) ∧
      (∀ row ∈ (analyze_city_data m k w df).2.1,
        row.mean = qmean (seasonTemps df row.season) ∧
        (row.count ≤ 1 → row.std = .nan) ∧
        (2 ≤ row.count →
          row.std = .val (Real.sqrt (sampleVar (seasonTemps df row.season)))) ∧
        (row.min ∈ seasonTemps df row.season ∧
          ∀ x ∈ seasonTemps df row.season, row.min ≤ x) ∧
        (row.max ∈ seasonTemps df row.season ∧
          ∀ x ∈ seasonTemps df row.season, x ≤ row.max) ∧
        row.count = (df.filter fun o => o.season == row.season).length)) ∧
    ((analyze_city_data m k w demoObs3).2.1.map (·.season) = ["winter"] ∧
      (analyze_city_data m k w demoObs3).2.1.map (·.mean) = [-6] ∧
      (analyze_city_data m k w demoObs3).2.1.map (·.std) = [.val 1] ∧
      (analyze_city_data m k w demoObs3).2.1.map (·.count) = [3]) := by
  have hseasons : ∀ df' : List Obs, (analyze_city_data m k w df').2.1.map (·.season)
      = List.insertionSort (fun a b => strLeb a b = true)
          (uniqueFirst ((sortByTimestamp df').map (·.season))) := by
    intro df'
    rw [analyze_stats_eq, List.map_map]
    exact (List.map_congr_left fun s _ => rfl).trans (List.map_id _)
  constructor
  · refine ⟨?_, ?_, ?_⟩
    · rw [hseasons]
      exact (List.perm_insertionSort _ _).symm.nodup
        (nodup_uniqueFirst ((sortByTimestamp df).map (·.season)))
    · intro s
      rw [hseasons]
      rw [(List.perm_insertionSort _ _).mem_iff, mem_uniqueFirst]
      exact ((sortByTimestamp_perm df).map (·.season)).mem_iff
    · intro row hrow
      rw [analyze_stats_eq] at hrow
      rcases List.mem_map.mp hrow with ⟨s, hs, rfl⟩
      have hsmem : s ∈ (sortByTimestamp df).map (·.season) :=
        (mem_uniqueFirst _ _).mp ((List.perm_insertionSort _ _).mem_iff.mp hs)
      rcases List.mem_map.mp hsmem with ⟨o, ho, hos⟩
      have hne : seasonTemps df s ≠ [] := by
        apply List.ne_nil_of_mem
        show o.temperature ∈ _
        exact List.mem_map.mpr ⟨o, List.mem_filter.mpr ⟨ho, by simp [hos]⟩, rfl⟩
      refine ⟨rfl, ?_, ?_, ?_, ?_, ?_⟩
      · intro hcount
        show sampleStd (seasonTemps df s) = .nan
        rw [sampleStd, if_pos hcount]
      · intro hcount
        show sampleStd (seasonTemps df s) = _
        rw [sampleStd, if_neg (by simp only [seasonTemps] at hcount ⊢; omega)]
      · exact min?_getD_spec _ hne
      · exact max?_getD_spec _ hne
      · show (seasonTemps df s).length = _
        rw [seasonTemps, List.length_map]
        exact ((sortByTimestamp_perm df).filter _).length_eq
  · refine ⟨rfl, ?_, ?_, rfl⟩
    · show [qmean (seasonTemps demoObs3 "winter")] = [-6]
      norm_num [seasonTemps, sortByTimestamp, demoObs3, List.insertionSort,
        List.orderedInsert, qmean]
    · show [sampleStd (seasonTemps demoObs3 "winter")] = [.val 1]
      have hvar : sampleVar (seasonTemps demoObs3 "winter") = 1 := by
        norm_num [seasonTemps, sortByTimestamp, demoObs3, List.insertionSort,
          List.orderedInsert, sampleVar, qmean]
      have hlen3 : (seasonTemps demoObs3 "winter").length = 3 := rfl
      rw [sampleStd, if_neg (by rw [hlen3]; omega), hvar]
      norm_num

/-- C2: `check_temperature_normality` returns the all-null `no_data`
dictionary (a value, not an exception) when the stats table has no row
for the season; otherwise, for a row with a (nonnegative) numeric std,
it returns `no_data = false`, bounds `mean ± k*std`, the inclusive-bound
normality flag, `deviation = currentTemp - mean`, and
`deviation_in_std = deviation / std` except `0` when `std = 0`; in
particular `std = 0` and `currentTemp = mean` give `deviation_in_std = 0`
and `is_normal = true`. -/
theorem C2_classifier (k t : ℚ) (s : String) (stats : List StatsRow) :
    (stats.filter (fun r => r.season == s) = [] →
      check_temperature_normality k t s stats
        = ⟨none, none, none, none, none, none, none, true⟩) ∧
    (∀ r rest, stats.filter (fun r => r.season == s) = r :: rest →
      ∀ sd : ℝ, r.std = .val sd → 0 ≤ sd →
        (check_temperature_normality k t s stats).no_data = false ∧
        (check_temperature_normality k t s stats).mean_temp = some r.mean ∧
        (check_temperature_normality k t s stats).std_temp = some (.val sd) ∧
        (check_temperature_normality k t s stats).lower_bound
          = some (.val ((r.mean : ℝ) - k * sd)) ∧
        (check_temperature_normality k t s stats).upper_bound
          = some (.val ((r.mean : ℝ) + k * sd)) ∧
        (check_temperature_normality k t s stats).deviation = some (t - r.mean) ∧
        ((check_temperature_normality k t s stats).is_normal = some true ↔
          ((r.mean : ℝ) - k * sd ≤ t ∧ (t : ℝ) ≤ (r.mean : ℝ) + k * sd)) ∧
        (0 < sd → (check_temperature_normality k t s stats).deviation_in_std
          = some (((t : ℝ) - r.mean) / sd)) ∧
        (sd = 0 → (check_temperature_normality k t s stats).deviation_in_std = some 0) ∧
        (sd = 0 → t = r.mean →
          (check_temperature_normality k t s stats).deviation_in_std = some 0 ∧
          (check_temperature_normality k t s stats).is_normal = some true)) := by
  constructor
  · intro h
    simp only [check_temperature_normality, h]
  · intro r rest hfilter sd hstd hsd
    refine ⟨?_, ?_, ?_, ?_, ?_, ?_, ?_, ?_, ?_, ?_⟩
    · simp only [check_temperature_normality, hfilter]
    · simp only [check_temperature_normality, hfilter]
    · simp only [check_temperature_normality, hfilter, hstd]
    · simp only [check_temperature_normality, hfilter, hstd, lowerBoundF]
    · simp only [check_temperature_normality, hfilter, hstd, upperBoundF]
    · simp only [check_temperature_normality, hfilter]
    · simp only [check_temperature_normality, hfilter, hstd, lowerBoundF, upperBoundF,
        FVal.leb, Option.some.injEq, Bool.and_eq_true, decide_eq_true_eq]
    · intro hpos
      simp only [check_temperature_normality, hfilter, hstd]
      rw [if_pos hpos]
      norm_cast
    · intro hzero
      simp only [check_temperature_normality, hfilter, hstd]
      rw [if_neg (by rw [hzero]; exact lt_irrefl 0)]
    · intro hzero hmean
      subst hzero
      subst hmean
      constructor
      · simp only [check_temperature_normality, hfilter, hstd]
        rw [if_neg (lt_irrefl 0)]
      · simp only [check_temperature_normality, hfilter, hstd, lowerBoundF, upperBoundF,
          FVal.leb, Option.some.injEq, Bool.and_eq_true, decide_eq_true_eq]
        norm_num

/-- C8: `analyze_city_data` is deterministic: identical inputs (same
observations, threshold and window) produce identical enriched series,
season statistics and anomaly lists, including the anomaly ordering. -/
theorem C8_deterministic (m : String → Option String) (k : ℚ) (w : ℕ)
    (df₁ df₂ : List Obs) (h : df₁ = df₂) :
    analyze_city_data m k w df₁ = analyze_city_data m k w df₂ := by
  rw [h]

theorem anomalies_season_count_one {m : String → Option String} {k : ℚ} {w : ℕ}
    {df : List Obs} {s : String} (hcount : (df.filter fun o => o.season == s).length = 1) :
    ∀ a ∈ (analyze_city_data m k w df).2.2, a.row.obs.season ≠ s := by
  intro a ha hseq
  have hiff := analyze_trd m k w df
  rw [hiff, List.mem_flatMap] at ha
  rcases ha with ⟨s', hs', ha⟩
  rcases List.mem_map.mp ha with ⟨e, he, rfl⟩
  rcases List.mem_filter.mp he with ⟨he1, hcond⟩
  rcases List.mem_filter.mp he1 with ⟨he2, hseas⟩
  have hseq' : e.obs.season = s' := by simpa using hseas
  rw [show s' = s from hseq'.symm.trans hseq] at hcond
  have hlen1 : (seasonTemps df s).length = 1 := by
    rw [seasonTemps, List.length_map, ((sortByTimestamp_perm df).filter _).length_eq]
    exact hcount
  have hstd : sampleStd (seasonTemps df s) = .nan := by
    rw [sampleStd, if_pos (by omega)]
  rw [hstd] at hcond
  simp [lowerBoundF, upperBoundF, FVal.ltb] at hcond

/-- C7 (amended): the analytical functions never raise on degenerate
statistics; a season with exactly one observation contributes no
anomalies (NaN bound comparisons are false), and the classifier on an
undefined std yields `deviation_in_std = 0` and a false normality flag,
while on `std = 0` it yields `deviation_in_std = 0` and a normality flag
that follows the collapsed inclusive bounds: true exactly when the
temperature equals the season mean, rather than unconditionally
false/undefined. -/
theorem C7_degenerate_stats :
    (∀ (m : String → Option String) (k : ℚ) (w : ℕ) (df : List Obs) (s : String),
      (df.filter fun o => o.season == s).length = 1 →
      ∀ a ∈ (analyze_city_data m k w df).2.2, a.row.obs.season ≠ s) ∧
    (∀ (k t : ℚ) (s : String) (stats : List StatsRow) (r : StatsRow)
        (rest : List StatsRow),
      stats.filter (fun r => r.season == s) = r :: rest → r.std = .nan →
      (check_temperature_normality k t s stats).deviation_in_std = some 0 ∧
      (check_temperature_normality k t s stats).is_normal = some false) ∧
    (∀ (k t : ℚ) (s : String) (stats : List StatsRow) (r : StatsRow)
        (rest : List StatsRow),
      stats.filter (fun r => r.season == s) = r :: rest → r.std = .val 0 →
      (check_temperature_normality k t s stats).deviation_in_std = some 0 ∧
      ((check_temperature_normality k t s stats).is_normal = some true ↔ t = r.mean)) := by
  refine ⟨fun m k w df s hcount => anomalies_season_count_one hcount, ?_, ?_⟩
  · intro k t s stats r rest hfilter hstd
    constructor
    · simp only [check_temperature_normality, hfilter, hstd]
    · simp only [check_temperature_normality, hfilter, hstd, lowerBoundF, upperBoundF,
        FVal.leb, Bool.false_and]
  · intro k t s stats r rest hfilter hstd
    constructor
    · simp only [check_temperature_normality, hfilter, hstd]
      rw [if_neg (lt_irrefl 0)]
    · simp only [check_temperature_normality, hfilter, hstd, lowerBoundF, upperBoundF,
        FVal.leb, Option.some.injEq, Bool.and_eq_true, decide_eq_true_eq]
      rw [mul_zero, sub_zero, add_zero]
      constructor
      · rintro ⟨h1, h2⟩
        exact_mod_cast le_antisymm h2 h1
      · rintro rfl
        exact ⟨le_refl _, le_refl _⟩

/-- C7 counterexample to the claim as stated: the classifier on a
season row with `std = 0`, mean `5` and current temperature `5` — a
degenerate-statistics case — returns `is_normal = true`, not a
false/undefined normality flag (while `deviation_in_std` is indeed `0`). -/
theorem C7_counterexample :
    (check_temperature_normality 2 5 "winter"
      [⟨"winter", 5, .val 0, 5, 5, 2, "Зима"⟩]).is_normal = some true ∧
    (check_temperature_normality 2 5 "winter"
      [⟨"winter", 5, .val 0, 5, 5, 2, "Зима"⟩]).deviation_in_std = some 0 := by
  have hfilter : ([⟨"winter", 5, .val 0, 5, 5, 2, "Зима"⟩] : List StatsRow).filter
      (fun r => r.season == "winter") = [⟨"winter", 5, .val 0, 5, 5, 2, "Зима"⟩] := rfl
  constructor
  · simp only [check_temperature_normality, hfilter, lowerBoundF, upperBoundF, FVal.leb,
      Option.some.injEq, Bool.and_eq_true, decide_eq_true_eq]
    norm_num
  · simp only [check_temperature_normality, hfilter]
    rw [if_neg (lt_irrefl 0)]

/-- C10: `load_and_validate_data` always returns a `(dataset, error)`
pair with exactly one side populated (every exception is caught), and
because the timestamp conversion runs before the required-column check,
a table lacking the `timestamp` column yields the generic load-failure
message of the exception handler, never the missing-columns message. -/
theorem C10_missing_timestamp (pn : String → Option ℚ) (pt : String → Except String ℤ)
    (m : String → Option String) (t : RawTable) :
    ((∃ df, load_and_validate_data pn pt m t = (some df, none)) ∨
      (∃ e, load_and_validate_data pn pt m t = (none, some e))) ∧
    ("timestamp" ∉ t.header →
      (∃ e, load_and_validate_data pn pt m t
        = (none, some ("Ошибка при загрузке файла: " ++ e))) ∧
      (∀ s, (load_and_validate_data pn pt m t).2
        ≠ some ("Отсутствуют необходимые колонки: " ++ s))) := by
  refine ⟨load_shape pn pt m t, fun hts => ?_⟩
  rcases load_missing_ts hts with ⟨e, he⟩
  refine ⟨⟨e, he⟩, fun s hcontra => ?_⟩
  rw [he] at hcontra
  exact generic_ne_validation e s (by simpa using hcontra)

/-- C3 (amended): when the table parses through the timestamp conversion
and a required column is still missing, `load_and_validate_data` fails
with the validation message naming exactly the missing columns; a table
lacking the `timestamp` column instead fails with the generic
load-failure error (the conversion precedes the column check); an
unparseable timestamp fails with the generic load error carrying the
underlying parse message; a non-numeric temperature column is loaded as
strings and not rejected; and on any failure no dataset is returned —
never both a dataset and an error. -/
theorem C3_loader_validation :
    (∀ (pn : String → Option ℚ) (pt : String → Except String ℤ)
        (m : String → Option String) (t : RawTable) (d1 d2 : DataFrame),
      readCsv pn t = .ok d1 → toDatetimeStep pt d1 = .ok d2 →
      (requiredColumns.filter fun c => ! d2.cols.contains c) ≠ [] →
      load_and_validate_data pn pt m t = (none, some ("Отсутствуют необходимые колонки: "
        ++ String.intercalate ", " (requiredColumns.filter fun c => ! d2.cols.contains c)))) ∧
    (∀ (pn : String → Option ℚ) (pt : String → Except String ℤ)
        (m : String → Option String) (t : RawTable), "timestamp" ∉ t.header →
      ∃ e, load_and_validate_data pn pt m t
        = (none, some ("Ошибка при загрузке файла: " ++ e))) ∧
    (∀ (pn : String → Option ℚ) (pt : String → Except String ℤ)
        (m : String → Option String) (t : RawTable) (d1 : DataFrame) (e : String),
      readCsv pn t = .ok d1 → toDatetimeStep pt d1 = .error e →
      load_and_validate_data pn pt m t
        = (none, some ("Ошибка при загрузке файла: " ++ e))) ∧
    ((load_and_validate_data demoParseNum demoParseTs demoSeasonMap tblBadTemp).2 = none) ∧
    (∀ (pn : String → Option ℚ) (pt : String → Except String ℤ)
        (m : String → Option String) (t : RawTable),
      ¬ (((load_and_validate_data pn pt m t).1).isSome
        ∧ ((load_and_validate_data pn pt m t).2).isSome)) := by
  refine ⟨?_, ?_, ?_, by decide, ?_⟩
  · intro pn pt m t d1 d2 h1 h2 hmiss
    unfold load_and_validate_data
    simp only [h1, h2]
    rw [if_neg (by simpa [List.isEmpty_iff] using hmiss)]
  · exact fun pn pt m t hts => load_missing_ts hts
  · intro pn pt m t d1 e h1 h2
    unfold load_and_validate_data
    simp only [h1, h2]
  · intro pn pt m t
    rcases load_shape pn pt m t with ⟨df, h⟩ | ⟨e, h⟩ <;> rw [h] <;> simp

/-- C3 counterexample to the claim as stated: a table missing only the
`timestamp` column fails with the generic load-failure message, not a
validation error naming the missing column, and a table with a
non-numeric temperature column loads without any error. -/
theorem C3_counterexample :
    load_and_validate_data demoParseNum demoParseTs demoSeasonMap tblNoTs
      = (none, some "Ошибка при загрузке файла: 'timestamp'") ∧
    "Ошибка при загрузке файла: 'timestamp'" ≠ "Отсутствуют необходимые колонки: timestamp" ∧
    (load_and_validate_data demoParseNum demoParseTs demoSeasonMap tblBadTemp).2 = none := by
  refine ⟨by decide, by decide, by decide⟩

/-- C4: a successfully loaded dataset has exactly as many rows as the
raw input, its rows are sorted by the `(city, timestamp)` key, and the
sort is stable: filtering the output by any fixed key value yields the
same row sequence as filtering the (order-preserving, row-wise mapped)
pre-sort pipeline output. -/
theorem C4_loader_sorted (pn : String → Option ℚ) (pt : String → Except String ℤ)
    (m : String → Option String) (t : RawTable) (df : DataFrame)
    (h : load_and_validate_data pn pt m t = (some df, none)) :
    df.rows.length = t.rows.length ∧
    df.rows.Pairwise (fun a b => rowLe df.cols a b = true) ∧
    (∃ dfU, unsortedLoad pn pt m t = .ok dfU ∧ df.cols = dfU.cols ∧
      dfU.rows.length = t.rows.length ∧ (∃ g, dfU.rows = t.rows.map g) ∧
      ∀ kv : Value × Value,
        df.rows.filter (fun r =>
            sortKey (df.cols.indexOf "city") (df.cols.indexOf "timestamp") r == kv)
          = dfU.rows.filter fun r =>
            sortKey (df.cols.indexOf "city") (df.cols.indexOf "timestamp") r == kv) := by
  rcases load_ok_inv h with ⟨d1, d2, dfU, h1, h2, hmiss, h3, hU, hdf⟩
  rcases readCsv_ok_inv h1 with ⟨hc1, g1, hr1⟩
  rcases toDatetimeStep_ok_inv h2 with ⟨hc2, g2, hr2⟩
  rcases seasonStep_ok_inv h3 with ⟨hc3, g3, hr3⟩
  have hrowsU : dfU.rows = t.rows.map fun r => g3 (g2 (g1 r)) := by
    rw [hr3, hr2, hr1, List.map_map, List.map_map]
    rfl
  have hlenU : dfU.rows.length = t.rows.length := by
    rw [hrowsU, List.length_map]
  have hcols : df.cols = dfU.cols := by rw [hdf]; rfl
  have hrows : df.rows = List.insertionSort
      (fun a b => rowLe dfU.cols a b = true) dfU.rows := by
    rw [hdf]; rfl
  have hlen : df.rows.length = t.rows.length := by
    rw [hrows, List.length_insertionSort, hlenU]
  haveI htot : IsTotal (List Value) (fun a b => rowLe dfU.cols a b = true) :=
    ⟨fun a b => pairLeb_total _ _⟩
  haveI htrans : IsTrans (List Value) (fun a b => rowLe dfU.cols a b = true) :=
    ⟨fun a b c hab hbc => pairLeb_trans hab hbc⟩
  refine ⟨hlen, ?_, dfU, hU, hcols, hlenU, ⟨_, hrowsU⟩, fun kv => ?_⟩
  · rw [hrows, hcols]
    exact List.sorted_insertionSort _ _
  · rw [hrows, hcols]
    exact filter_insertionSort _ _ _ fun a b ha hb => by
      have ha' : sortKey (dfU.cols.indexOf "city") (dfU.cols.indexOf "timestamp") a = kv := by
        simpa using ha
      have hb' : sortKey (dfU.cols.indexOf "city") (dfU.cols.indexOf "timestamp") b = kv := by
        simpa using hb
      show pairLeb _ _ = true
      exact pairLeb_of_eq (ha'.trans hb'.symm)

theorem C8_deterministic_witness :
    analyze_city_data demoSeasonMap 2 30 demoObs3 = analyze_city_data demoSeasonMap 2 30 demoObs3 :=
  C8_deterministic demoSeasonMap 2 30 demoObs3 demoObs3 rfl

theorem C5_rolling_mean_witness :
    (1 : ℕ) ≤ 2 ∧ demoObs3 ≠ [] ∧
    ((analyze_city_data demoSeasonMap 2 2 demoObs3).1.length = demoObs3.length ∧
    (∀ i (h : i < (analyze_city_data demoSeasonMap 2 2 demoObs3).1.length),
      ((analyze_city_data demoSeasonMap 2 2 demoObs3).1.get ⟨i, h⟩).rolling_mean
        = some (qmean ((((sortByTimestamp demoObs3).map (·.temperature)).take (i + 1)).drop
            (i + 1 - 2)))) ∧
    (∀ h0 : 0 < (analyze_city_data demoSeasonMap 2 2 demoObs3).1.length,
      ((analyze_city_data demoSeasonMap 2 2 demoObs3).1.get ⟨0, h0⟩).rolling_mean
        = some (((analyze_city_data demoSeasonMap 2 2 demoObs3).1.get ⟨0, h0⟩).obs.temperature))) :=
  ⟨by decide, by decide, C5_rolling_mean demoSeasonMap 2 2 demoObs3 (by decide) (by decide)⟩

theorem C10_missing_timestamp_witness :
    ((∃ df, load_and_validate_data demoParseNum demoParseTs demoSeasonMap tblNoTs
        = (some df, none)) ∨
      (∃ e, load_and_validate_data demoParseNum demoParseTs demoSeasonMap tblNoTs
        = (none, some e))) ∧
    (∃ e, load_and_validate_data demoParseNum demoParseTs demoSeasonMap tblNoTs
      = (none, some ("Ошибка при загрузке файла: " ++ e))) ∧
    (∀ s, (load_and_validate_data demoParseNum demoParseTs demoSeasonMap tblNoTs).2
      ≠ some ("Отсутствуют необходимые колонки: " ++ s)) :=
  have h := C10_missing_timestamp demoParseNum demoParseTs demoSeasonMap tblNoTs
  ⟨h.1, (h.2 (by decide)).1, (h.2 (by decide)).2⟩

theorem C6_season_stats_witness :
    demoWinterRow.mean = qmean (seasonTemps demoObs3 demoWinterRow.season) ∧
    demoWinterRow.std
      = .val (Real.sqrt (sampleVar (seasonTemps demoObs3 demoWinterRow.season))) ∧
    demoWinterRow.count
      = (demoObs3.filter fun o => o.season == demoWinterRow.season).length ∧
    (analyze_city_data demoSeasonMap 2 30 demoObs3).2.1.map (·.mean) = [-6] :=
  have hmem : demoWinterRow ∈ (analyze_city_data demoSeasonMap 2 30 demoObs3).2.1 := by
    rw [analyze_stats_eq]
    exact List.mem_map.mpr ⟨"winter", by decide, rfl⟩
  have h := C6_season_stats demoSeasonMap 2 30 demoObs3
  ⟨(h.1.2.2 demoWinterRow hmem).1,
    (h.1.2.2 demoWinterRow hmem).2.2.1 (by decide),
    (h.1.2.2 demoWinterRow hmem).2.2.2.2.2,
    h.2.2.1⟩

theorem C2_classifier_witness :
    (check_temperature_normality 2 5 "winter" []
      = ⟨none, none, none, none, none, none, none, true⟩) ∧
    ((check_temperature_normality 2 5 "winter"
        [⟨"winter", 0, .val 1, 0, 0, 2, "Зима"⟩]).no_data = false ∧
      (check_temperature_normality 2 5 "winter"
        [⟨"winter", 0, .val 1, 0, 0, 2, "Зима"⟩]).mean_temp = some 0 ∧
      (check_temperature_normality 2 5 "winter"
        [⟨"winter", 0, .val 1, 0, 0, 2, "Зима"⟩]).std_temp = some (.val 1) ∧
      (check_temperature_normality 2 5 "winter"
        [⟨"winter", 0, .val 1, 0, 0, 2, "Зима"⟩]).lower_bound
          = some (.val (((0 : ℚ) : ℝ) - 2 * 1)) ∧
      (check_temperature_normality 2 5 "winter"
        [⟨"winter", 0, .val 1, 0, 0, 2, "Зима"⟩]).upper_bound
          = some (.val (((0 : ℚ) : ℝ) + 2 * 1)) ∧
      (check_temperature_normality 2 5 "winter"
        [⟨"winter", 0, .val 1, 0, 0, 2, "Зима"⟩]).deviation = some (5 - 0) ∧
      ((check_temperature_normality 2 5 "winter"
        [⟨"winter", 0, .val 1, 0, 0, 2, "Зима"⟩]).is_normal = some true ↔
          (((0 : ℚ) : ℝ) - 2 * 1 ≤ (5 : ℚ) ∧ ((5 : ℚ) : ℝ) ≤ ((0 : ℚ) : ℝ) + 2 * 1)) ∧
      ((0 : ℝ) < 1 → (check_temperature_normality 2 5 "winter"
        [⟨"winter", 0, .val 1, 0, 0, 2, "Зима"⟩]).deviation_in_std
          = some ((((5 : ℚ) : ℝ) - ((0 : ℚ) : ℝ)) / 1)) ∧
      ((1 : ℝ) = 0 → (check_temperature_normality 2 5 "winter"
        [⟨"winter", 0, .val 1, 0, 0, 2, "Зима"⟩]).deviation_in_std = some 0) ∧
      ((1 : ℝ) = 0 → (5 : ℚ) = 0 →
        (check_temperature_normality 2 5 "winter"
          [⟨"winter", 0, .val 1, 0, 0, 2, "Зима"⟩]).deviation_in_std = some 0 ∧
        (check_temperature_normality 2 5 "winter"
          [⟨"winter", 0, .val 1, 0, 0, 2, "Зима"⟩]).is_normal = some true)) :=
  ⟨(C2_classifier 2 5 "winter" []).1 rfl,
    (C2_classifier 2 5 "winter" [⟨"winter", 0, .val 1, 0, 0, 2, "Зима"⟩]).2
      ⟨"winter", 0, .val 1, 0, 0, 2, "Зима"⟩ [] rfl 1 rfl zero_le_one⟩

theorem C7_degenerate_stats_witness :
    (∀ a ∈ (analyze_city_data demoSeasonMap 2 1 demoObs4).2.2,
      a.row.obs.season ≠ "summer") ∧
    ((check_temperature_normality 2 7 "winter"
        [⟨"winter", 5, .nan, 5, 5, 1, "Зима"⟩]).deviation_in_std = some 0 ∧
      (check_temperature_normality 2 7 "winter"
        [⟨"winter", 5, .nan, 5, 5, 1, "Зима"⟩]).is_normal = some false) ∧
    ((check_temperature_normality 2 7 "winter"
        [⟨"winter", 5, .val 0, 5, 5, 2, "Зима"⟩]).deviation_in_std = some 0 ∧
      ((check_temperature_normality 2 7 "winter"
        [⟨"winter", 5, .val 0, 5, 5, 2, "Зима"⟩]).is_normal = some true ↔ (7 : ℚ) = 5)) :=
  ⟨C7_degenerate_stats.1 demoSeasonMap 2 1 demoObs4 "summer" (by decide),
    C7_degenerate_stats.2.1 2 7 "winter" [⟨"winter", 5, .nan, 5, 5, 1, "Зима"⟩]
      ⟨"winter", 5, .nan, 5, 5, 1, "Зима"⟩ [] rfl rfl,
    C7_degenerate_stats.2.2 2 7 "winter" [⟨"winter", 5, .val 0, 5, 5, 2, "Зима"⟩]
      ⟨"winter", 5, .val 0, 5, 5, 2, "Зима"⟩ [] rfl rfl⟩

theorem C3_loader_validation_witness :
    load_and_validate_data demoParseNum demoParseTs demoSeasonMap tblNoTemp
      = (none, some "Отсутствуют необходимые колонки: temperature") ∧
    (∃ e, load_and_validate_data demoParseNum demoParseTs demoSeasonMap tblNoTs
      = (none, some ("Ошибка при загрузке файла: " ++ e))) ∧
    load_and_validate_data demoParseNum demoParseTs demoSeasonMap tblBadTs
      = (none, some ("Ошибка при загрузке файла: " ++ "Unknown datetime string format: x1")) ∧
    ¬ (((load_and_validate_data demoParseNum demoParseTs demoSeasonMap tblValid).1).isSome
      ∧ ((load_and_validate_data demoParseNum demoParseTs demoSeasonMap tblValid).2).isSome) :=
  ⟨C3_loader_validation.1 demoParseNum demoParseTs demoSeasonMap tblNoTemp
      ⟨["city", "timestamp", "season"], [[.str "a", .num 1, .str "winter"]]⟩
      ⟨["city", "timestamp", "season"], [[.str "a", .time 1, .str "winter"]]⟩
      rfl rfl (by decide),
    C3_loader_validation.2.1 demoParseNum demoParseTs demoSeasonMap tblNoTs (by decide),
    C3_loader_validation.2.2.1 demoParseNum demoParseTs demoSeasonMap tblBadTs
      ⟨["city", "timestamp", "temperature", "season"],
        [[.str "a", .str "x1", .num 3, .str "winter"]]⟩
      "Unknown datetime string format: x1" rfl rfl,
    C3_loader_validation.2.2.2.2 demoParseNum demoParseTs demoSeasonMap tblValid⟩

theorem C4_loader_sorted_witness :
    load_and_validate_data demoParseNum demoParseTs demoSeasonMap tblValid
      = (some ⟨["city", "timestamp", "temperature", "season", "season_ru"],
          [[.str "a", .time 1, .num 4, .str "summer", .str "Лето"],
            [.str "a", .time 2, .num 2, .str "summer", .str "Лето"],
            [.str "a", .time 2, .num 3, .str "summer", .str "Лето"],
            [.str "b", .time 2, .num 1, .str "winter", .str "Зима"]]⟩, none) ∧
    ((⟨["city", "timestamp", "temperature", "season", "season_ru"],
          [[.str "a", .time 1, .num 4, .str "summer", .str "Лето"],
            [.str "a", .time 2, .num 2, .str "summer", .str "Лето"],
            [.str "a", .time 2, .num 3, .str "summer", .str "Лето"],
            [.str "b", .time 2, .num 1, .str "winter", .str "Зима"]]⟩ : DataFrame).rows.length
        = tblValid.rows.length ∧
      (⟨["city", "timestamp", "temperature", "season", "season_ru"],
          [[.str "a", .time 1, .num 4, .str "summer", .str "Лето"],
            [.str "a", .time 2, .num 2, .str "summer", .str "Лето"],
            [.str "a", .time 2, .num 3, .str "summer", .str "Лето"],
            [.str "b", .time 2, .num 1, .str "winter", .str "Зима"]]⟩ : DataFrame).rows.Pairwise
        (fun a b => rowLe (⟨["city", "timestamp", "temperature", "season", "season_ru"],
          [[.str "a", .time 1, .num 4, .str "summer", .str "Лето"],
            [.str "a", .time 2, .num 2, .str "summer", .str "Лето"],
            [.str "a", .time 2, .num 3, .str "summer", .str "Лето"],
            [.str "b", .time 2, .num 1, .str "winter", .str "Зима"]]⟩ : DataFrame).cols a b
          = true) ∧
      (∃ dfU, unsortedLoad demoParseNum demoParseTs demoSeasonMap tblValid = .ok dfU ∧
        (⟨["city", "timestamp", "temperature", "season", "season_ru"],
          [[.str "a", .time 1, .num 4, .str "summer", .str "Лето"],
            [.str "a", .time 2, .num 2, .str "summer", .str "Лето"],
            [.str "a", .time 2, .num 3, .str "summer", .str "Лето"],
            [.str "b", .time 2, .num 1, .str "winter", .str "Зима"]]⟩ : DataFrame).cols = dfU.cols ∧
        dfU.rows.length = tblValid.rows.length ∧ (∃ g, dfU.rows = tblValid.rows.map g) ∧
        ∀ kv : Value × Value,
          (⟨["city", "timestamp", "temperature", "season", "season_ru"],
              [[.str "a", .time 1, .num 4, .str "summer", .str "Лето"],
                [.str "a", .time 2, .num 2, .str "summer", .str "Лето"],
                [.str "a", .time 2, .num 3, .str "summer", .str "Лето"],
                [.str "b", .time 2, .num 1, .str "winter", .str "Зима"]]⟩ : DataFrame).rows.filter
              (fun r => sortKey 0 1 r == kv)
            = dfU.rows.filter fun r => sortKey 0 1 r == kv)) :=
  have h : load_and_validate_data demoParseNum demoParseTs demoSeasonMap tblValid
      = (some ⟨["city", "timestamp", "temperature", "season", "season_ru"],
          [[.str "a", .time 1, .num 4, .str "summer", .str "Лето"],
            [.str "a", .time 2, .num 2, .str "summer", .str "Лето"],
            [.str "a", .time 2, .num 3, .str "summer", .str "Лето"],
            [.str "b", .time 2, .num 1, .str "winter", .str "Зима"]]⟩, none) := by decide
  ⟨h, C4_loader_sorted demoParseNum demoParseTs demoSeasonMap tblValid _ h⟩

theorem C1_anomaly_set_witness :
    (0 : ℚ) < 2 ∧
    ((∀ a, a ∈ (analyze_city_data demoSeasonMap 2 30 demoObs4).2.2 ↔
      (a.row ∈ (analyze_city_data demoSeasonMap 2 30 demoObs4).1 ∧
        (FVal.ltb (.val a.row.obs.temperature)
            (lowerBoundF 2 (qmean (seasonTemps demoObs4 a.row.obs.season))
              (sampleStd (seasonTemps demoObs4 a.row.obs.season))) = true ∨
          FVal.ltb (upperBoundF 2 (qmean (seasonTemps demoObs4 a.row.obs.season))
              (sampleStd (seasonTemps demoObs4 a.row.obs.season)))
            (.val a.row.obs.temperature) = true) ∧
        a.lower_bound = lowerBoundF 2 (qmean (seasonTemps demoObs4 a.row.obs.season))
          (sampleStd (seasonTemps demoObs4 a.row.obs.season)) ∧
        a.upper_bound = upperBoundF 2 (qmean (seasonTemps demoObs4 a.row.obs.season))
          (sampleStd (seasonTemps demoObs4 a.row.obs.season)) ∧
        a.deviation = a.row.obs.temperature - qmean (seasonTemps demoObs4 a.row.obs.season))) ∧
    (∀ a ∈ (analyze_city_data demoSeasonMap 2 30 demoObs4).2.2, a.row.obs ∈ demoObs4) ∧
    (analyze_city_data demoSeasonMap 2 30 demoObs4).2.2.length ≤ demoObs4.length) :=
  ⟨by decide, C1_anomaly_set demoSeasonMap 2 30 demoObs4 (by decide)⟩
